import Mathlib

/-!
Verification of the streamline attribute engine
(`scilpy/tractograms/dps_and_dpp_management.py`).

The Python module is shallowly embedded: numeric values are exact rationals
(the source uses floating point, but every claim checked here only exercises
arithmetic that is exact in both worlds), Python dictionaries are association
lists, Python exceptions are `Except` values.  Functions that mutate the
tractogram in place are embedded as state-passing functions; when such a
function raises, the error value carries the tractogram state at the moment
of the raise, mirroring in-place mutation that has already happened.
-/

set_option autoImplicit false

namespace Scilpy

/-- Python exception classes relevant to the embedded module. -/
inductive PyErr where
  | valueError (msg : String)
  | keyError (k : String)
  | typeError
  | indexError
  deriving DecidableEq, Repr

deriving instance DecidableEq for Except

/-- Coordinate-space tag of a tractogram.  Modelled from the spec: the
stateful-tractogram container is an external capability; the spec's data
model describes its `space` field as an enumerated tag (voxel vs. world). -/
inductive Space where
  | world
  | vox
  deriving DecidableEq, Repr

/-- Origin-convention tag of a tractogram.  Modelled from the spec:
voxel-corner vs. voxel-center origin. -/
inductive Origin where
  | center
  | corner
  deriving DecidableEq, Repr

/-- A 3-D point with exact rational coordinates. -/
abbrev Point := ℚ × ℚ × ℚ

/-- Association-list lookup, mirroring Python `d[k]` / `k in d` on a dict
with unique keys. -/
def alistLookup {α : Type} : List (String × α) → String → Option α
  | [], _ => none
  | p :: t, k => if p.1 = k then some p.2 else alistLookup t k

/-- Association-list update, mirroring Python `d[k] = v`: replaces the entry
in place when the key is present, appends otherwise. -/
def alistInsert {α : Type} : List (String × α) → String → α → List (String × α)
  | [], k, v => [(k, v)]
  | p :: t, k, v => if p.1 = k then (k, v) :: t else p :: alistInsert t k v

/-- Association-list deletion, mirroring Python `del d[k]`. -/
def alistErase {α : Type} : List (String × α) → String → List (String × α)
  | [], _ => []
  | p :: t, k => if p.1 = k then alistErase t k else p :: alistErase t k

/-- Modelled from the spec: the dipy `StatefulTractogram` container, an
external collaborator.  Streamlines are ordered point sequences; DPS maps a
key to one vector per streamline; DPP maps a key to one vector per point per
streamline; `space`/`origin` are the coordinate-convention tags;
`dimensions` is the reference grid shape. -/
structure StatefulTractogram where
  streamlines : List (List Point)
  data_per_streamline : List (String × List (List ℚ))
  data_per_point : List (String × List (List (List ℚ)))
  space : Space
  origin : Origin
  dimensions : ℕ × ℕ × ℕ
  deriving DecidableEq, Repr

/--
`convert_dps_to_dpp(sft, keys, overwrite)` from the source: for each key in
order, raise if the key is not in `data_per_streamline`; raise if it is
already in `data_per_point` and `overwrite` is false; otherwise broadcast
the per-streamline value to every point of the streamline
(`[[val]*len(s) for val, s in zip(dps[key], streamlines)]`), store it under
the same key in `data_per_point` and delete the key from
`data_per_streamline`.  An error value carries the tractogram as already
mutated by the earlier iterations of the loop.
-/
def convert_dps_to_dpp (sft : StatefulTractogram) (keys : List String)
    (overwrite : Bool) : Except (PyErr × StatefulTractogram) StatefulTractogram :=
  match keys with
  | [] => .ok sft
  | key :: rest =>
    match alistLookup sft.data_per_streamline key with
    | none => .error (.valueError ("Dps key " ++ key ++ " not found!"), sft)
    | some vals =>
      if (alistLookup sft.data_per_point key).isSome && !overwrite then
        .error (.valueError ("Dpp key " ++ key ++
          " already existed. Please allow overwriting."), sft)
      else
        convert_dps_to_dpp
          { sft with
            data_per_point := alistInsert sft.data_per_point key
              ((vals.zip sft.streamlines).map
                (fun vs => List.replicate vs.2.length vs.1)),
            data_per_streamline := alistErase sft.data_per_streamline key }
          rest overwrite

theorem alistLookup_insert_self {α : Type} (l : List (String × α)) (k : String)
    (v : α) : alistLookup (alistInsert l k v) k = some v := by
  induction l with
  | nil => simp [alistInsert, alistLookup]
  | cons p t ih =>
    by_cases h : p.1 = k
    · simp [alistInsert, alistLookup, h]
    · simp [alistInsert, alistLookup, h, ih]

theorem alistLookup_erase_self {α : Type} (l : List (String × α)) (k : String) :
    alistLookup (alistErase l k) k = none := by
  induction l with
  | nil => simp [alistErase, alistLookup]
  | cons p t ih =>
    by_cases h : p.1 = k
    · simp [alistErase, alistLookup, h, ih]
    · simp [alistErase, alistLookup, h, ih]

theorem broadcast_getD (vals : List (List ℚ)) (sls : List (List Point))
    (i : ℕ) (hlen : vals.length = sls.length) (hi : i < sls.length) :
    ((vals.zip sls).map (fun vs => List.replicate vs.2.length vs.1)).getD i []
      = List.replicate (sls.getD i []).length (vals.getD i []) := by
  have hz : (vals.zip sls).length = sls.length := by
    simp [List.length_zip, hlen]
  have hiz : i < ((vals.zip sls).map
      (fun vs => List.replicate vs.2.length vs.1)).length := by
    simpa [hz] using hi
  have hv : i < vals.length := hlen ▸ hi
  rw [List.getD_eq_getElem _ _ hiz, List.getElem_map,
    List.getD_eq_getElem _ _ hi, List.getD_eq_getElem _ _ hv]
  congr 1 <;> simp [List.getElem_zip]

/-- **C1.**  For every tractogram and DPS key `k` present in
`data_per_streamline` (with the data-model invariant that the DPS entry is
parallel to `streamlines`), when the conversion does not hit the
key-collision guard, `convert_dps_to_dpp sft [k]` succeeds and in the result:
`k` maps in `data_per_point` to one list per streamline whose length equals
that streamline's point count and whose every element equals the original
per-streamline value, and `k` is gone from `data_per_streamline`. -/
theorem convert_dps_to_dpp_broadcasts (sft : StatefulTractogram) (k : String)
    (vals : List (List ℚ)) (overwrite : Bool)
    (hv : alistLookup sft.data_per_streamline k = some vals)
    (hlen : vals.length = sft.streamlines.length)
    (hnc : (alistLookup sft.data_per_point k).isSome = false ∨ overwrite = true) :
    ∃ t, convert_dps_to_dpp sft [k] overwrite = .ok t ∧
      alistLookup t.data_per_streamline k = none ∧
      ∃ l, alistLookup t.data_per_point k = some l ∧
        l.length = sft.streamlines.length ∧
        ∀ i, i < sft.streamlines.length →
          (l.getD i []).length = (sft.streamlines.getD i []).length ∧
          ∀ x ∈ l.getD i [], x = vals.getD i [] := by
  have hguard : ((alistLookup sft.data_per_point k).isSome && !overwrite) = false := by
    rcases hnc with h | h <;> simp [h]
  refine ⟨{ sft with
      data_per_point := alistInsert sft.data_per_point k
        ((vals.zip sft.streamlines).map
          (fun vs => List.replicate vs.2.length vs.1)),
      data_per_streamline := alistErase sft.data_per_streamline k },
    ?_, ?_, ?_⟩
  · rw [convert_dps_to_dpp, hv]
    simp only [hguard, Bool.false_eq_true, if_false]
    rfl
  · exact alistLookup_erase_self _ _
  · refine ⟨_, alistLookup_insert_self _ _ _, ?_, ?_⟩
    · simp [List.length_zip, hlen]
    · intro i hi
      rw [broadcast_getD vals sft.streamlines i hlen hi]
      exact ⟨by simp, fun x hx => List.eq_of_mem_replicate hx⟩

/-- Closed witness for `convert_dps_to_dpp_broadcasts`: two streamlines of
lengths 2 and 3 with DPS key `len` = `[[2], [3]]`. -/
theorem convert_dps_to_dpp_broadcasts_witness :
    ∃ t, convert_dps_to_dpp
        { streamlines := [[(0, 0, 0), (1, 0, 0)], [(0, 0, 0), (1, 0, 0), (2, 0, 0)]],
          data_per_streamline := [("len", [[2], [3]])],
          data_per_point := [],
          space := .vox, origin := .corner, dimensions := (3, 3, 3) }
        ["len"] false = .ok t ∧
      alistLookup t.data_per_streamline "len" = none ∧
      ∃ l, alistLookup t.data_per_point "len" = some l ∧
        l.length = 2 ∧
        ∀ i, i < 2 →
          (l.getD i []).length =
            (([[((0 : ℚ), (0 : ℚ), (0 : ℚ)), (1, 0, 0)],
               [(0, 0, 0), (1, 0, 0), (2, 0, 0)]] : List (List Point)).getD i []).length ∧
          ∀ x ∈ l.getD i [], x = ([[(2 : ℚ)], [3]] : List (List ℚ)).getD i [] :=
  convert_dps_to_dpp_broadcasts _ "len" [[2], [3]] false (by decide) (by decide)
    (Or.inl (by decide))

/-- Fixture for the C2 counterexample: one streamline of one point, a single
DPS key `a`, empty DPP. -/
def sftC2 : StatefulTractogram :=
  { streamlines := [[(0, 0, 0)]],
    data_per_streamline := [("a", [[1]])],
    data_per_point := [],
    space := .vox, origin := .corner, dimensions := (1, 1, 1) }

/-- State of `sftC2` after key `a` has been converted: `a` was moved from
DPS to DPP before the missing key `b` is discovered. -/
def sftC2mut : StatefulTractogram :=
  { streamlines := [[(0, 0, 0)]],
    data_per_streamline := [],
    data_per_point := [("a", [[[1]]])],
    space := .vox, origin := .corner, dimensions := (1, 1, 1) }

/-- **C2 counterexample.**  Calling `convert_dps_to_dpp` with keys
`["a", "b"]` where only `a` exists raises the missing-key error for `b`,
but the tractogram reaching the error already had `a` converted: keys are
validated one by one inside the loop, not batched up front, so a partially
converted tractogram results. -/
theorem convert_dps_to_dpp_not_atomic :
    convert_dps_to_dpp sftC2 ["a", "b"] false =
      .error (.valueError "Dps key b not found!", sftC2mut) ∧
    sftC2mut ≠ sftC2 := by
  constructor
  · rfl
  · decide

/-- **C2 (amended).**  When the first listed key is absent from
`data_per_streamline` — in particular in the spec's single-key call
`convert_dps_to_dpp(sft, ['missing_key'])` — the missing-key error is
raised with the tractogram completely unmodified.  (With several keys,
keys preceding the first absent one are already converted when the error
is raised, as the counterexample shows.) -/
theorem convert_dps_to_dpp_missing_first_key (sft : StatefulTractogram)
    (k : String) (rest : List String) (overwrite : Bool)
    (h : alistLookup sft.data_per_streamline k = none) :
    convert_dps_to_dpp sft (k :: rest) overwrite =
      .error (.valueError ("Dps key " ++ k ++ " not found!"), sft) := by
  rw [convert_dps_to_dpp, h]

/-- Closed witness for `convert_dps_to_dpp_missing_first_key`. -/
theorem convert_dps_to_dpp_missing_first_key_witness :
    convert_dps_to_dpp sftC2 ["missing_key"] false =
      .error (.valueError "Dps key missing_key not found!", sftC2) :=
  convert_dps_to_dpp_missing_first_key sftC2 "missing_key" [] false (by decide)

/-- **C7.**  For a key present in `data_per_streamline` and already present
in `data_per_point`: with `overwrite = false` the conversion raises the
key-collision error (leaving the single-key call's tractogram unmodified);
with `overwrite = true` it succeeds, the existing `data_per_point` entry is
replaced by the broadcast per-streamline values, and the key is removed from
`data_per_streamline`. -/
theorem convert_dps_to_dpp_overwrite (sft : StatefulTractogram) (k : String)
    (vals : List (List ℚ))
    (hv : alistLookup sft.data_per_streamline k = some vals)
    (hc : (alistLookup sft.data_per_point k).isSome = true) :
    convert_dps_to_dpp sft [k] false =
      .error (.valueError ("Dpp key " ++ k ++
        " already existed. Please allow overwriting."), sft) ∧
    ∃ t, convert_dps_to_dpp sft [k] true = .ok t ∧
      alistLookup t.data_per_point k =
        some ((vals.zip sft.streamlines).map
          (fun vs => List.replicate vs.2.length vs.1)) ∧
      alistLookup t.data_per_streamline k = none := by
  constructor
  · rw [convert_dps_to_dpp, hv]
    simp [hc]
  · refine ⟨{ sft with
        data_per_point := alistInsert sft.data_per_point k
          ((vals.zip sft.streamlines).map
            (fun vs => List.replicate vs.2.length vs.1)),
        data_per_streamline := alistErase sft.data_per_streamline k },
      ?_, alistLookup_insert_self _ _ _, alistLookup_erase_self _ _⟩
    rw [convert_dps_to_dpp, hv]
    simp only [Bool.not_true, Bool.and_false, Bool.false_eq_true, if_false]
    rfl

/-- Closed witness for `convert_dps_to_dpp_overwrite`: key `a` present in
both dictionaries. -/
theorem convert_dps_to_dpp_overwrite_witness :
    convert_dps_to_dpp
        { sftC2 with data_per_point := [("a", [[[9]]])] } ["a"] false =
      .error (.valueError "Dpp key a already existed. Please allow overwriting.",
        { sftC2 with data_per_point := [("a", [[[9]]])] }) ∧
    ∃ t, convert_dps_to_dpp
        { sftC2 with data_per_point := [("a", [[[9]]])] } ["a"] true = .ok t ∧
      alistLookup t.data_per_point "a" =
        some ((([[(1 : ℚ)]] : List (List ℚ)).zip
          ([[((0 : ℚ), (0 : ℚ), (0 : ℚ))]] : List (List Point))).map
          (fun vs => List.replicate vs.2.length vs.1)) ∧
      alistLookup t.data_per_streamline "a" = none :=
  convert_dps_to_dpp_overwrite _ "a" [[1]] (by decide) (by decide)

/-- A numpy value as used by the operator registry: a 0-d scalar, a 1-d
vector or a 2-d matrix, over exact rationals. -/
inductive NDArr where
  | scalar (x : ℚ)
  | vec (v : List ℚ)
  | mat (m : List (List ℚ))
  deriving DecidableEq, Repr

/-- Whether all rows of a 2-d grid have the first row's length (numpy arrays
are never ragged; a ragged build is modelled as an error). -/
def gridOk (m : List (List ℚ)) : Bool :=
  m.all (fun r => r.length = (m.headD []).length)

/-- Combine the rows of a nonempty 2-d grid elementwise with `f`:
`combineRows (+)` is the numpy axis-0 column sum, `combineRows min` the
axis-0 column minimum, and so on. -/
def combineRows (f : ℚ → ℚ → ℚ) : List (List ℚ) → List ℚ
  | [] => []
  | [r] => r
  | r :: rs => List.zipWith f r (combineRows f rs)

/-- `np.mean(a, axis=0)`.  A 0-d input is an axis error; the empty-slice
case (which numpy turns into a NaN with a warning) and a ragged grid are
modelled as error values; no claim exercises them. -/
def meanAxis0 : NDArr → Except PyErr NDArr
  | .scalar _ => .error (.valueError "axis 0 is out of bounds")
  | .vec [] => .error (.valueError "mean of empty slice")
  | .vec v => .ok (.scalar (v.sum / v.length))
  | .mat m =>
    if m ≠ [] ∧ gridOk m then
      .ok (.vec ((combineRows (· + ·) m).map (fun x => x / m.length)))
    else .error (.valueError "mean of empty slice")

/-- `np.sum(a, axis=0)`. -/
def sumAxis0 : NDArr → Except PyErr NDArr
  | .scalar _ => .error (.valueError "axis 0 is out of bounds")
  | .vec v => .ok (.scalar v.sum)
  | .mat m =>
    if m ≠ [] ∧ gridOk m then .ok (.vec (combineRows (· + ·) m))
    else .error (.valueError "zero-size array reduction")

/-- `np.min(a, axis=0)` / `np.max(a, axis=0)`, parameterized by the binary
comparison fold. -/
def extremumAxis0 (f : ℚ → ℚ → ℚ) : NDArr → Except PyErr NDArr
  | .scalar _ => .error (.valueError "axis 0 is out of bounds")
  | .vec [] => .error (.valueError "zero-size array reduction")
  | .vec (x :: xs) => .ok (.scalar (xs.foldl f x))
  | .mat m =>
    if m ≠ [] ∧ gridOk m then .ok (.vec (combineRows f m))
    else .error (.valueError "zero-size array reduction")

/-- `np.squeeze`: removes singleton dimensions, so a length-1 vector or a
1×1 matrix becomes a scalar, a single-row or single-column matrix becomes a
vector. -/
def squeeze : NDArr → NDArr
  | .scalar x => .scalar x
  | .vec [x] => .scalar x
  | .vec v => .vec v
  | .mat [[x]] => .scalar x
  | .mat [r] => .vec r
  | .mat m =>
    if m.all (fun r => r.length = 1) then .vec (m.map (fun r => r.headD 0))
    else .mat m

/-- `stream_mean(array) = np.squeeze(np.mean(array, axis=0))`. -/
def stream_mean (array : NDArr) : Except PyErr NDArr :=
  (meanAxis0 array).map squeeze

/-- `stream_sum(array) = np.squeeze(np.sum(array, axis=0))`. -/
def stream_sum (array : NDArr) : Except PyErr NDArr :=
  (sumAxis0 array).map squeeze

/-- `stream_min(array) = np.squeeze(np.min(array, axis=0))`. -/
def stream_min (array : NDArr) : Except PyErr NDArr :=
  (extremumAxis0 min array).map squeeze

/-- `stream_max(array) = np.squeeze(np.max(array, axis=0))`. -/
def stream_max (array : NDArr) : Except PyErr NDArr :=
  (extremumAxis0 max array).map squeeze

/-- Exact rational square root where one exists (0 otherwise).  The source
computes a floating-point square root; the embedding is only evaluated at
inputs whose root is an exact rational, where the two agree. -/
def ratSqrt (q : ℚ) : ℚ :=
  if q ≤ 0 then 0
  else
    let sn := Nat.sqrt q.num.toNat
    let sd := Nat.sqrt q.den
    if sn * sn = q.num.toNat ∧ sd * sd = q.den then (sn : ℚ) / (sd : ℚ) else 0

/-- Sum of products of deviations from the mean,
`Σ (x_i - mean x) * (y_i - mean y)`.  The `1/(N-1)` normalization of
`np.cov` cancels in the correlation ratio and is omitted. -/
def devSum (x y : List ℚ) : ℚ :=
  ((x.zip y).map
    (fun p => (p.1 - x.sum / x.length) * (p.2 - y.sum / y.length))).sum

/-- One entry of the Pearson correlation-coefficient matrix of two
sequences. -/
def pearson (x y : List ℚ) : ℚ :=
  devSum x y / ratSqrt (devSum x x * devSum y y)

theorem ratSqrt_four : ratSqrt 4 = 2 := by
  have h2 : Nat.sqrt 4 = 2 := by rw [show (4 : ℕ) = 2 ^ 2 by norm_num, Nat.sqrt_eq']
  have ht : Int.toNat 4 = 4 := rfl
  rw [ratSqrt]
  norm_num [Rat.num_ofNat, Rat.den_ofNat, ht, h2]

/-- `stream_correlation(array1, array2) = np.corrcoef(array1, array2)`:
the 2×2 Pearson correlation-coefficient matrix of two equal-length 1-d
sequences; mismatched shapes are an error. -/
def stream_correlation (array1 array2 : NDArr) : Except PyErr NDArr :=
  match array1, array2 with
  | .vec x, .vec y =>
    if x.length = y.length ∧ x ≠ [] then
      .ok (.mat [[pearson x x, pearson x y], [pearson y x, pearson y y]])
    else .error (.valueError "array shapes are not compatible")
  | _, _ => .error (.valueError "corrcoef expects 1-d arrays")

/-- A registry entry: a Python function object taking one or two array
arguments.  Calling with the wrong arity raises `TypeError`, as in Python. -/
inductive PyOp where
  | unary (f : NDArr → Except PyErr NDArr)
  | binary (f : NDArr → NDArr → Except PyErr NDArr)

/-- Call a registry entry with one argument. -/
def callUnary : PyOp → NDArr → Except PyErr NDArr
  | .unary f, a => f a
  | .binary _, _ => .error .typeError

/-- Call a registry entry with two arguments. -/
def callBinary : PyOp → NDArr → NDArr → Except PyErr NDArr
  | .unary _, _, _ => .error .typeError
  | .binary f, a, b => f a b

/-- The `OPERATIONS` registry from the source. -/
def OPERATIONS : List (String × PyOp) :=
  [("mean", .unary stream_mean),
   ("sum", .unary stream_sum),
   ("min", .unary stream_min),
   ("max", .unary stream_max),
   ("correlation", .binary stream_correlation)]

/-- `result[0, 1]` on a numpy value: row 0, column 1 of a matrix; scalars
and vectors do not support a two-index subscript. -/
def getIdx01 : NDArr → Except PyErr ℚ
  | .mat ((_ :: x :: _) :: _) => .ok x
  | _ => .error .indexError

/-- First-error list traversal, the Python `for` loop that appends one
result per element and propagates the first raised exception. -/
def mapME {α β : Type} (f : α → Except PyErr β) : List α → Except PyErr (List β)
  | [] => .ok []
  | a :: l =>
    match f a with
    | .error e => .error e
    | .ok b =>
      match mapME f l with
      | .error e => .error e
      | .ok bs => .ok (b :: bs)

theorem mapME_eq_map {α β : Type} (f : α → Except PyErr β) (g : α → β)
    (l : List α) (h : ∀ a ∈ l, f a = .ok (g a)) :
    mapME f l = .ok (l.map g) := by
  induction l with
  | nil => rfl
  | cons a t ih =>
    rw [mapME, h a (List.mem_cons_self a t), ih (fun x hx => h x (List.mem_cons_of_mem a hx))]
    rfl

/--
`perform_operation_dpp_to_dps(op_name, sft, dpp_name, endpoints_only)` from
the source: look up the operator, then for each streamline's per-point data
either reduce the whole (points × width) array (`endpoints_only=False`) or
reduce the concatenation of the first and last point's vectors
(`endpoints_only=True`).
-/
def perform_operation_dpp_to_dps (op_name : String) (sft : StatefulTractogram)
    (dpp_name : String) (endpoints_only : Bool) : Except PyErr (List NDArr) :=
  match alistLookup OPERATIONS op_name with
  | none => .error (.keyError op_name)
  | some call_op =>
    match alistLookup sft.data_per_point dpp_name with
    | none => .error (.keyError dpp_name)
    | some l =>
      if endpoints_only then
        mapME (fun s =>
          match s with
          | [] => .error .indexError
          | s0 :: _ => callUnary call_op (.vec (s0 ++ s.getLastD []))) l
      else
        mapME (fun s => callUnary call_op (.mat s)) l

/--
`perform_pairwise_streamline_operation_on_endpoints(op_name, sft, dpp_name)`
from the source: for each streamline, `OPERATIONS[op_name](s[0], s[-1])[0, 1]`.
-/
def perform_pairwise_streamline_operation_on_endpoints (op_name : String)
    (sft : StatefulTractogram) (dpp_name : String) : Except PyErr (List ℚ) :=
  match alistLookup OPERATIONS op_name with
  | none => .error (.keyError op_name)
  | some call_op =>
    match alistLookup sft.data_per_point dpp_name with
    | none => .error (.keyError dpp_name)
    | some l =>
      mapME (fun s =>
        match s with
        | [] => .error .indexError
        | s0 :: _ =>
          match callBinary call_op (.vec s0) (.vec (s.getLastD [])) with
          | .error e => .error e
          | .ok r => getIdx01 r) l

/-- Fixture for C5: one streamline of four points whose per-point scalar
values are `a`, `b`, `c`, `d`. -/
def sftC5 (a b c d : ℚ) : StatefulTractogram :=
  { streamlines := [[(0, 0, 0), (1, 0, 0), (2, 0, 0), (3, 0, 0)]],
    data_per_streamline := [],
    data_per_point := [("metric", [[[a], [b], [c], [d]]])],
    space := .vox, origin := .corner, dimensions := (4, 1, 1) }

/-- **C5.**  `perform_operation_dpp_to_dps` with `endpoints_only=True`
reduces the concatenation of the first and last point's vectors: for
per-point values `[a, b, c, d]` with operator `mean` it yields
`(a + d) / 2`, while the full reduction yields `(a + b + c + d) / 4`; at
`[1, 2, 3, 10]` these are `5.5` and `4.0`, which differ. -/
theorem perform_operation_dpp_to_dps_endpoints (a b c d : ℚ) :
    perform_operation_dpp_to_dps "mean" (sftC5 a b c d) "metric" true =
      .ok [.scalar ((a + d) / 2)] ∧
    perform_operation_dpp_to_dps "mean" (sftC5 a b c d) "metric" false =
      .ok [.scalar ((a + b + c + d) / 4)] ∧
    perform_operation_dpp_to_dps "mean" (sftC5 1 2 3 10) "metric" true =
      .ok [.scalar (11 / 2)] ∧
    perform_operation_dpp_to_dps "mean" (sftC5 1 2 3 10) "metric" false =
      .ok [.scalar 4] ∧
    ((11 : ℚ) / 2) ≠ 4 := by
  refine ⟨?_, ?_, ?_, ?_, by norm_num⟩
  · simp [perform_operation_dpp_to_dps, OPERATIONS, alistLookup, sftC5, mapME,
      callUnary, stream_mean, meanAxis0, squeeze, Except.map]
  · simp [perform_operation_dpp_to_dps, OPERATIONS, alistLookup, sftC5, mapME,
      callUnary, stream_mean, meanAxis0, squeeze, Except.map, gridOk, combineRows]
    try ring_nf
  · simp [perform_operation_dpp_to_dps, OPERATIONS, alistLookup, sftC5, mapME,
      callUnary, stream_mean, meanAxis0, squeeze, Except.map]
    try norm_num
  · simp [perform_operation_dpp_to_dps, OPERATIONS, alistLookup, sftC5, mapME,
      callUnary, stream_mean, meanAxis0, squeeze, Except.map, gridOk, combineRows]
    try norm_num

/-- **C6.**  The operator registry maps exactly the five names
`mean`, `sum`, `min`, `max`, `correlation` to their reduction functions;
`mean`/`sum`/`min`/`max` reduce along axis 0 and squeeze singleton
dimensions (a reduction over a single row yields a scalar, not a length-1
array); `correlation` of `[1,2,3]` with itself is the 2×2 matrix with
off-diagonal entry 1. -/
theorem OPERATIONS_registry :
    OPERATIONS.map Prod.fst = ["mean", "sum", "min", "max", "correlation"] ∧
    alistLookup OPERATIONS "mean" = some (.unary stream_mean) ∧
    alistLookup OPERATIONS "sum" = some (.unary stream_sum) ∧
    alistLookup OPERATIONS "min" = some (.unary stream_min) ∧
    alistLookup OPERATIONS "max" = some (.unary stream_max) ∧
    alistLookup OPERATIONS "correlation" = some (.binary stream_correlation) ∧
    stream_mean (.mat [[1, 2], [3, 4]]) = .ok (.vec [2, 3]) ∧
    stream_sum (.mat [[1, 2], [3, 4]]) = .ok (.vec [4, 6]) ∧
    stream_min (.mat [[1, 2], [3, 4]]) = .ok (.vec [1, 2]) ∧
    stream_max (.mat [[1, 2], [3, 4]]) = .ok (.vec [3, 4]) ∧
    stream_mean (.mat [[7]]) = .ok (.scalar 7) ∧
    stream_sum (.vec [5]) = .ok (.scalar 5) ∧
    stream_correlation (.vec [1, 2, 3]) (.vec [1, 2, 3]) =
      .ok (.mat [[1, 1], [1, 1]]) := by
  refine ⟨rfl, rfl, rfl, rfl, rfl, rfl, ?_, ?_, ?_, ?_, ?_, ?_, ?_⟩
  · simp [stream_mean, meanAxis0, squeeze, gridOk, combineRows, Except.map]
    try norm_num
  · simp [stream_sum, sumAxis0, squeeze, gridOk, combineRows, Except.map]
    try norm_num
  · simp [stream_min, extremumAxis0, squeeze, gridOk, combineRows, Except.map]
    try norm_num
  · simp [stream_max, extremumAxis0, squeeze, gridOk, combineRows, Except.map]
    try norm_num
  · simp [stream_mean, meanAxis0, squeeze, gridOk, combineRows, Except.map]
    try norm_num
  · simp [stream_sum, sumAxis0, squeeze, Except.map]
  · simp [stream_correlation, pearson, devSum]
    norm_num [ratSqrt_four]

/-- Fixture for C8: one streamline whose per-point vectors are `[1, 2, 3]`
and `[4, 5, 6]`. -/
def sftC8 : StatefulTractogram :=
  { streamlines := [[(0, 0, 0), (1, 0, 0)]],
    data_per_streamline := [],
    data_per_point := [("metric", [[[1, 2, 3], [4, 5, 6]]])],
    space := .vox, origin := .corner, dimensions := (2, 1, 1) }

/-- **C8 counterexample.**  For the operator `mean`,
`perform_pairwise_streamline_operation_on_endpoints` fails with the arity
`TypeError` raised by the two-argument call of the unary operator itself —
the call does not succeed and the `[0, 1]` indexing step (whose failure
would be `IndexError`) is never reached. -/
theorem perform_pairwise_mean_fails_at_call :
    perform_pairwise_streamline_operation_on_endpoints "mean" sftC8 "metric" =
      .error PyErr.typeError ∧
    callBinary (PyOp.unary stream_mean) (NDArr.vec [1, 2, 3])
      (NDArr.vec [4, 5, 6]) = .error PyErr.typeError ∧
    PyErr.typeError ≠ PyErr.indexError := by
  exact ⟨rfl, rfl, by decide⟩

/-- **C8 (amended).**  For every registry operator other than `correlation`
the pairwise-endpoint operation on a tractogram with at least one streamline
(with a nonempty first entry) fails, with the arity `TypeError` raised by the
two-argument call of the unary operator itself — before any indexing; for
`correlation` it returns, per streamline, the off-diagonal entry
`pearson(s[0], s[-1])` of the 2×2 correlation matrix of the first and last
points' DPP vectors. -/
theorem perform_pairwise_endpoints_spec :
    (∀ (opn : String) (sft : StatefulTractogram) (k : String)
      (s0 : List ℚ) (srest : List (List ℚ)) (lrest : List (List (List ℚ))),
      (opn = "mean" ∨ opn = "sum" ∨ opn = "min" ∨ opn = "max") →
      alistLookup sft.data_per_point k = some ((s0 :: srest) :: lrest) →
      perform_pairwise_streamline_operation_on_endpoints opn sft k =
        .error PyErr.typeError) ∧
    (∀ (sft : StatefulTractogram) (k : String) (l : List (List (List ℚ))),
      alistLookup sft.data_per_point k = some l →
      (∀ s ∈ l, s ≠ [] ∧ (s.headD []).length = (s.getLastD []).length ∧
        s.headD [] ≠ []) →
      perform_pairwise_streamline_operation_on_endpoints "correlation" sft k =
        .ok (l.map (fun s => pearson (s.headD []) (s.getLastD [])))) := by
  constructor
  · intro opn sft k s0 srest lrest hop hk
    rcases hop with h | h | h | h <;> subst h <;>
      · rw [perform_pairwise_streamline_operation_on_endpoints]
        simp only [hk]
        rfl
  · intro sft k l hk hs
    rw [perform_pairwise_streamline_operation_on_endpoints]
    show (match alistLookup sft.data_per_point k with
      | none => Except.error (PyErr.keyError k)
      | some l => mapME _ l) = _
    rw [hk]
    refine mapME_eq_map _ _ _ (fun s hsl => ?_)
    obtain ⟨hne, hlen, hhd⟩ := hs s hsl
    match s, hne with
    | s0 :: srest, _ =>
      have h0 : (s0 :: srest).headD [] = s0 := rfl
      rw [h0] at hlen hhd
      show (match stream_correlation (.vec s0) (.vec ((s0 :: srest).getLastD [])) with
        | .error e => Except.error e
        | .ok r => getIdx01 r) = _
      rw [stream_correlation, if_pos ⟨hlen, hhd⟩]
      rfl

/-- Closed witness for `perform_pairwise_endpoints_spec`: the `sum`
operator fails with the arity error on `sftC8`, and `correlation` on
`sftC8` returns the single off-diagonal entry 1 (its first and last point
vectors are perfectly correlated). -/
theorem perform_pairwise_endpoints_spec_witness :
    perform_pairwise_streamline_operation_on_endpoints "sum" sftC8 "metric" =
      .error PyErr.typeError ∧
    perform_pairwise_streamline_operation_on_endpoints "correlation" sftC8
      "metric" = .ok [1] := by
  constructor
  · exact perform_pairwise_endpoints_spec.1 "sum" sftC8 "metric"
      [1, 2, 3] [[4, 5, 6]] [] (Or.inr (Or.inl rfl)) rfl
  · have h := perform_pairwise_endpoints_spec.2 sftC8 "metric"
      [[[1, 2, 3], [4, 5, 6]]] rfl (by decide)
    rw [h]
    simp [pearson, devSum]
    norm_num [ratSqrt_four]

/-- Modelled from the spec: the volumetric-map collaborator (`DataVolume`),
an external capability holding a 3-D or 4-D grid shape and a
coordinate-to-value lookup parameterized by space and origin; the lookup
returns the sampled value as a vector of channel values. -/
structure DataVolume where
  data_shape : List ℕ
  get_value_at_coordinate : ℚ → ℚ → ℚ → Space → Origin → List ℚ

/-- Channel count of the map: `shape[3]` of a 4-D grid, else 1. -/
def volDimension (map_volume : DataVolume) : ℕ :=
  if map_volume.data_shape.length = 4 then map_volume.data_shape.getD 3 1 else 1

/-- numpy row assignment `arr[i] = v` into a row of width `dim`: an
exact-width vector is copied, a size-1 vector broadcasts, other sizes
raise. -/
def bcastRow (dim : ℕ) (v : List ℚ) : Except PyErr (List (Option ℚ)) :=
  if v.length = dim then .ok (v.map some)
  else if v.length = 1 then .ok (List.replicate dim (some (v.headD 0)))
  else .error (.valueError "could not broadcast")

/-- One streamline of the `endpoints_only=True` branch of
`project_map_to_streamlines`: a (point-count × channel) NaN-filled array
(the NaN sentinel is modelled as `none`) whose rows 0 and -1 receive the
map values sampled at the first and last points. -/
def sampleEndpoints (sft : StatefulTractogram) (map_volume : DataVolume)
    (s : List Point) : Except PyErr (List (List (Option ℚ))) :=
  match s with
  | [] => .error .indexError
  | p :: _ =>
    match bcastRow (volDimension map_volume)
        (map_volume.get_value_at_coordinate p.1 p.2.1 p.2.2 sft.space sft.origin),
      bcastRow (volDimension map_volume)
        (map_volume.get_value_at_coordinate (s.getLastD (0, 0, 0)).1
          (s.getLastD (0, 0, 0)).2.1 (s.getLastD (0, 0, 0)).2.2
          sft.space sft.origin) with
    | .ok r1, .ok r2 =>
      .ok (((List.replicate s.length
        (List.replicate (volDimension map_volume) none)).set 0 r1).set
        (s.length - 1) r2)
    | .error e, _ => .error e
    | _, .error e => .error e

/-- One streamline of the default branch: sample the map at every point,
then `np.reshape` the row list to (point-count, channel-count), which
requires every sampled vector to have the channel width. -/
def sampleAllPoints (sft : StatefulTractogram) (map_volume : DataVolume)
    (s : List Point) : Except PyErr (List (List (Option ℚ))) :=
  if (s.map (fun p =>
      map_volume.get_value_at_coordinate p.1 p.2.1 p.2.2
        sft.space sft.origin)).all
      (fun r => r.length = volDimension map_volume) then
    .ok (s.map (fun p =>
      (map_volume.get_value_at_coordinate p.1 p.2.1 p.2.2
        sft.space sft.origin).map some))
  else .error (.valueError "cannot reshape")

/--
`project_map_to_streamlines(sft, map_volume, endpoints_only)` from the
source.  The source only reads `sft` (streamlines, space, origin) and
`map_volume`; it assigns nothing into them, so the embedding threads both
back unchanged alongside the freestanding list of sampled per-point
arrays.
-/
def project_map_to_streamlines (sft : StatefulTractogram)
    (map_volume : DataVolume) (endpoints_only : Bool) :
    Except PyErr (List (List (List (Option ℚ)))) ×
      StatefulTractogram × DataVolume :=
  ((if endpoints_only then mapME (sampleEndpoints sft map_volume) sft.streamlines
    else mapME (sampleAllPoints sft map_volume) sft.streamlines),
   sft, map_volume)

/-- **C9.**  `project_map_to_streamlines` never mutates its input
tractogram or map: both components of the threaded state are returned
exactly as given, in both sampling modes and also when sampling raises;
the sampled values are only the freestanding first component. -/
theorem project_map_to_streamlines_no_mutation (sft : StatefulTractogram)
    (map_volume : DataVolume) (endpoints_only : Bool) :
    (project_map_to_streamlines sft map_volume endpoints_only).2 =
      (sft, map_volume) := rfl

/-- The (point-count × channel) array built by the `endpoints_only=True`
branch for one nonempty streamline: all-NaN rows, row 0 and row -1
overwritten with the sampled endpoint values. -/
def endpointArray (sft : StatefulTractogram) (map_volume : DataVolume)
    (s : List Point) : List (List (Option ℚ)) :=
  ((List.replicate s.length
      (List.replicate (volDimension map_volume) none)).set 0
    ((map_volume.get_value_at_coordinate (s.headD (0, 0, 0)).1
      (s.headD (0, 0, 0)).2.1 (s.headD (0, 0, 0)).2.2
      sft.space sft.origin).map some)).set (s.length - 1)
    ((map_volume.get_value_at_coordinate (s.getLastD (0, 0, 0)).1
      (s.getLastD (0, 0, 0)).2.1 (s.getLastD (0, 0, 0)).2.2
      sft.space sft.origin).map some)

theorem sampleEndpoints_eq (sft : StatefulTractogram)
    (map_volume : DataVolume) (s : List Point) (hs : s ≠ [])
    (hdim : ∀ x y z sp og,
      (map_volume.get_value_at_coordinate x y z sp og).length =
        volDimension map_volume) :
    sampleEndpoints sft map_volume s = .ok (endpointArray sft map_volume s) := by
  match s, hs with
  | p :: t, _ =>
    rw [sampleEndpoints, bcastRow, if_pos (hdim _ _ _ _ _), bcastRow,
      if_pos (hdim _ _ _ _ _)]
    rfl

theorem endpointArray_length (sft : StatefulTractogram)
    (map_volume : DataVolume) (s : List Point) :
    (endpointArray sft map_volume s).length = s.length := by
  rw [endpointArray]
  simp

theorem endpointArray_row_widths (sft : StatefulTractogram)
    (map_volume : DataVolume) (s : List Point)
    (hdim : ∀ x y z sp og,
      (map_volume.get_value_at_coordinate x y z sp og).length =
        volDimension map_volume) :
    ∀ r ∈ endpointArray sft map_volume s, r.length = volDimension map_volume := by
  intro r hr
  rw [endpointArray] at hr
  rcases List.mem_or_eq_of_mem_set hr with hr1 | hr1
  · rcases List.mem_or_eq_of_mem_set hr1 with hr2 | hr2
    · rw [List.eq_of_mem_replicate hr2]
      simp
    · rw [hr2]
      simp [hdim]
  · rw [hr1]
    simp [hdim]

theorem setRows_getD_zero (n dim : ℕ) (r1 r2 : List (Option ℚ))
    (hn : 3 ≤ n) :
    (((List.replicate n (List.replicate dim none)).set 0 r1).set
      (n - 1) r2).getD 0 [] = r1 := by
  have h0 : 0 < (((List.replicate n (List.replicate dim none)).set 0 r1).set
      (n - 1) r2).length := by
    simp
    omega
  rw [List.getD_eq_getElem _ _ h0, List.getElem_set_ne (by omega),
    List.getElem_set_self]

theorem setRows_getD_last (n dim : ℕ) (r1 r2 : List (Option ℚ))
    (hn : 3 ≤ n) :
    (((List.replicate n (List.replicate dim none)).set 0 r1).set
      (n - 1) r2).getD (n - 1) [] = r2 := by
  have hl : n - 1 < (((List.replicate n (List.replicate dim none)).set 0 r1).set
      (n - 1) r2).length := by
    simp
    omega
  rw [List.getD_eq_getElem _ _ hl, List.getElem_set_self]

theorem setRows_getD_interior (n dim : ℕ) (r1 r2 : List (Option ℚ))
    (j : ℕ) (hj0 : 0 < j) (hjn : j < n - 1) :
    (((List.replicate n (List.replicate dim none)).set 0 r1).set
      (n - 1) r2).getD j [] = List.replicate dim none := by
  have hjlt : j < (((List.replicate n (List.replicate dim none)).set 0 r1).set
      (n - 1) r2).length := by
    simp
    omega
  rw [List.getD_eq_getElem _ _ hjlt, List.getElem_set_ne (by omega),
    List.getElem_set_ne (by omega), List.getElem_replicate]

theorem endpointArray_row_zero (sft : StatefulTractogram)
    (map_volume : DataVolume) (s : List Point) (hn : 3 ≤ s.length) :
    (endpointArray sft map_volume s).getD 0 [] =
      (map_volume.get_value_at_coordinate (s.headD (0, 0, 0)).1
        (s.headD (0, 0, 0)).2.1 (s.headD (0, 0, 0)).2.2
        sft.space sft.origin).map some := by
  unfold endpointArray
  exact setRows_getD_zero _ _ _ _ hn

theorem endpointArray_row_last (sft : StatefulTractogram)
    (map_volume : DataVolume) (s : List Point) (hn : 3 ≤ s.length) :
    (endpointArray sft map_volume s).getD (s.length - 1) [] =
      (map_volume.get_value_at_coordinate (s.getLastD (0, 0, 0)).1
        (s.getLastD (0, 0, 0)).2.1 (s.getLastD (0, 0, 0)).2.2
        sft.space sft.origin).map some := by
  unfold endpointArray
  exact setRows_getD_last _ _ _ _ hn

theorem endpointArray_row_interior (sft : StatefulTractogram)
    (map_volume : DataVolume) (s : List Point) (j : ℕ)
    (hj0 : 0 < j) (hjn : j < s.length - 1) :
    (endpointArray sft map_volume s).getD j [] =
      List.replicate (volDimension map_volume) none := by
  unfold endpointArray
  exact setRows_getD_interior _ _ _ _ _ hj0 hjn

/-- **C4.**  With `endpoints_only=True` (under the collaborator contract
that every lookup returns a channel-width vector, and on nonempty
streamlines so that the Python endpoint subscripts are defined), the
projection succeeds and yields one 2-D array per streamline of shape
(point-count, channel-count); for any streamline with at least 3 points,
row 0 equals the map value sampled at the first point and row -1 equals
the map value sampled at the last point (each entry non-NaN), and every
interior row is the all-NaN row. -/
theorem project_map_to_streamlines_endpoint_masking
    (sft : StatefulTractogram) (map_volume : DataVolume)
    (hne : ∀ s ∈ sft.streamlines, s ≠ [])
    (hdim : ∀ x y z sp og,
      (map_volume.get_value_at_coordinate x y z sp og).length =
        volDimension map_volume) :
    ∃ data, (project_map_to_streamlines sft map_volume true).1 = .ok data ∧
      data.length = sft.streamlines.length ∧
      ∀ i, i < sft.streamlines.length →
        (data.getD i []).length = (sft.streamlines.getD i []).length ∧
        (∀ r ∈ data.getD i [], r.length = volDimension map_volume) ∧
        (3 ≤ (sft.streamlines.getD i []).length →
          (data.getD i []).getD 0 [] =
            (map_volume.get_value_at_coordinate
              ((sft.streamlines.getD i []).headD (0, 0, 0)).1
              ((sft.streamlines.getD i []).headD (0, 0, 0)).2.1
              ((sft.streamlines.getD i []).headD (0, 0, 0)).2.2
              sft.space sft.origin).map some ∧
          (data.getD i []).getD
              ((sft.streamlines.getD i []).length - 1) [] =
            (map_volume.get_value_at_coordinate
              ((sft.streamlines.getD i []).getLastD (0, 0, 0)).1
              ((sft.streamlines.getD i []).getLastD (0, 0, 0)).2.1
              ((sft.streamlines.getD i []).getLastD (0, 0, 0)).2.2
              sft.space sft.origin).map some ∧
          (∀ x ∈ (data.getD i []).getD 0 [], x.isSome) ∧
          (∀ x ∈ (data.getD i []).getD
            ((sft.streamlines.getD i []).length - 1) [], x.isSome) ∧
          (∀ j, 0 < j → j < (sft.streamlines.getD i []).length - 1 →
            (data.getD i []).getD j [] =
              List.replicate (volDimension map_volume) none)) := by
  have hmap : (project_map_to_streamlines sft map_volume true).1 =
      .ok (sft.streamlines.map (endpointArray sft map_volume)) := by
    show mapME (sampleEndpoints sft map_volume) sft.streamlines = _
    exact mapME_eq_map _ _ _
      (fun s hs => sampleEndpoints_eq sft map_volume s (hne s hs) hdim)
  refine ⟨sft.streamlines.map (endpointArray sft map_volume), hmap, by simp, ?_⟩
  intro i hi
  have hgi : (sft.streamlines.map (endpointArray sft map_volume)).getD i [] =
      endpointArray sft map_volume (sft.streamlines.getD i []) := by
    rw [List.getD_eq_getElem _ _ (by simpa using hi),
      List.getElem_map, List.getD_eq_getElem _ _ hi]
  rw [hgi]
  refine ⟨endpointArray_length _ _ _, endpointArray_row_widths _ _ _ hdim, ?_⟩
  intro h3
  refine ⟨endpointArray_row_zero _ _ _ h3, endpointArray_row_last _ _ _ h3,
    ?_, ?_, endpointArray_row_interior _ _ _⟩
  · rw [endpointArray_row_zero _ _ _ h3]
    intro x hx
    rcases List.mem_map.mp hx with ⟨y, _, rfl⟩
    rfl
  · rw [endpointArray_row_last _ _ _ h3]
    intro x hx
    rcases List.mem_map.mp hx with ⟨y, _, rfl⟩
    rfl

/-- Closed witness for `project_map_to_streamlines_endpoint_masking`: one
3-point streamline over a constant 3-D map whose every sample is `[7]`, so
rows 0 and -1 are `[some 7]`. -/
theorem project_map_to_streamlines_endpoint_masking_witness :
    ∃ data, (project_map_to_streamlines
        { streamlines := [[(0, 0, 0), (1, 0, 0), (2, 0, 0)]],
          data_per_streamline := [], data_per_point := [],
          space := .vox, origin := .corner, dimensions := (3, 3, 3) }
        { data_shape := [3, 3, 3],
          get_value_at_coordinate := fun _ _ _ _ _ => [7] } true).1 = .ok data ∧
      data.length = 1 ∧
      ∀ i, i < 1 →
        (data.getD i []).length = 3 ∧
        (∀ r ∈ data.getD i [], r.length = 1) ∧
        (3 ≤ (3 : ℕ) →
          (data.getD i []).getD 0 [] = [some 7] ∧
          (data.getD i []).getD 2 [] = [some 7] ∧
          (∀ x ∈ (data.getD i []).getD 0 [], x.isSome) ∧
          (∀ x ∈ (data.getD i []).getD 2 [], x.isSome) ∧
          (∀ j, 0 < j → j < 2 →
            (data.getD i []).getD j [] = List.replicate 1 none)) := by
  have h := project_map_to_streamlines_endpoint_masking
    { streamlines := [[(0, 0, 0), (1, 0, 0), (2, 0, 0)]],
      data_per_streamline := [], data_per_point := [],
      space := .vox, origin := .corner, dimensions := (3, 3, 3) }
    { data_shape := [3, 3, 3],
      get_value_at_coordinate := fun _ _ _ _ _ => [7] }
    (by decide) (fun _ _ _ _ _ => rfl)
  simpa using h

/-- Modelled from the spec: `sft.to_vox()`, a capability of the tractogram
container — convert streamline coordinates from world to voxel space via
the given world-to-voxel affine capability and set the space tag; a no-op
when the tractogram is already in voxel space. -/
def to_vox (w2v : Point → Point) (sft : StatefulTractogram) :
    StatefulTractogram :=
  if sft.space = Space.vox then sft
  else { sft with streamlines := sft.streamlines.map (List.map w2v),
                  space := Space.vox }

/-- Modelled from the spec: `sft.to_corner()` — shift voxel coordinates by
one half per axis when moving from the center to the corner convention and
set the origin tag; a no-op when already corner-origin. -/
def to_corner (sft : StatefulTractogram) : StatefulTractogram :=
  if sft.origin = Origin.corner then sft
  else { sft with streamlines := sft.streamlines.map (List.map
          (fun p => (p.1 + 1/2, p.2.1 + 1/2, p.2.2 + 1/2))),
                  origin := Origin.corner }

/-- numpy `astype(int)`: truncation toward zero. -/
def truncQ (q : ℚ) : ℤ := if 0 ≤ q then ⌊q⌋ else ⌈q⌉

/-- Python sequence subscript semantics: a nonnegative index must be below
the length; a negative index counts from the end. -/
def pyIndex (n : ℕ) (i : ℤ) : Option ℕ :=
  if 0 ≤ i then (if i < (n : ℤ) then some i.toNat else none)
  else (if 0 ≤ i + (n : ℤ) then some (i + (n : ℤ)).toNat else none)

/-- The integer voxel of streamline `si`, point `pi`:
`x, y, z = sft.streamlines[s][p, :].astype(int)`. -/
def voxelOf (sft : StatefulTractogram) (si pi : ℕ) : ℤ × ℤ × ℤ :=
  (truncQ ((sft.streamlines.getD si []).getD pi (0, 0, 0)).1,
   truncQ ((sft.streamlines.getD si []).getD pi (0, 0, 0)).2.1,
   truncQ ((sft.streamlines.getD si []).getD pi (0, 0, 0)).2.2)

/-- Whether the integer index `c` is acceptable to numpy for an axis of
size `n`: indices from `-n` up to `n - 1` are accepted (negative ones wrap
around), anything else raises `IndexError`. -/
abbrev npIndexOk (n : ℕ) (c : ℤ) : Prop := -(n : ℤ) ≤ c ∧ c < (n : ℤ)

/-- The bounds check performed by `count[x, y, z] += 1` on the grid of
`sft`, which in the source runs before the `data_per_point` access. -/
abbrev voxelOk (sft : StatefulTractogram) (v : ℤ × ℤ × ℤ) : Prop :=
  npIndexOk sft.dimensions.1 v.1 ∧ npIndexOk sft.dimensions.2.1 v.2.1 ∧
  npIndexOk sft.dimensions.2.2 v.2.2

/-- One accumulation step of the `project_dpp_to_map` loop body for
streamline `si` and point subscript `p`, in the source's order: read the
streamline point, truncate it to its integer voxel, run the grid bounds
check of `count[x, y, z] += 1`, then read the per-point value
`data_per_point[dpp_key][si][p]`, which must be a size-1 vector to be
addable into the scalar map cell.  Subscript failures mirror the Python
`IndexError`/`KeyError` order.  The accumulation cell is kept as the raw
truncated coordinate: numpy's wrap-around aliasing of negative in-range
indices is not modelled, so grid-shaped statements carry a nonnegative
in-bounds hypothesis (`voxInBounds`). -/
def pointEvent (sft : StatefulTractogram) (dpp_key : String) (si : ℕ)
    (p : ℤ) : Except PyErr ((ℤ × ℤ × ℤ) × ℚ) :=
  match pyIndex (sft.streamlines.getD si []).length p with
  | none => .error .indexError
  | some pi =>
    if voxelOk sft (voxelOf sft si pi) then
      match alistLookup sft.data_per_point dpp_key with
      | none => .error (.keyError dpp_key)
      | some dpp =>
        if si < dpp.length then
          match pyIndex ((dpp.getD si []).length) p with
          | none => .error .indexError
          | some pj =>
            match (dpp.getD si []).getD pj [] with
            | [x] => .ok (voxelOf sft si pi, x)
            | _ => .error (.valueError "could not broadcast")
        else .error .indexError
    else .error .indexError

/-- The accumulation events of one streamline: subscripts `[0, -1]` when
`endpoints_only`, else `range(len(streamline))`. -/
def streamEvents (sft : StatefulTractogram) (dpp_key : String)
    (endpoints_only : Bool) (si : ℕ) :
    Except PyErr (List ((ℤ × ℤ × ℤ) × ℚ)) :=
  mapME (pointEvent sft dpp_key si)
    (if endpoints_only then [0, -1]
     else (List.range (sft.streamlines.getD si []).length).map Int.ofNat)

/-- All accumulation events of the double loop, in order. -/
def collectEvents (sft : StatefulTractogram) (dpp_key : String)
    (endpoints_only : Bool) : Except PyErr (List ((ℤ × ℤ × ℤ) × ℚ)) :=
  match mapME (streamEvents sft dpp_key endpoints_only)
      (List.range sft.streamlines.length) with
  | .error e => .error e
  | .ok evss => .ok evss.flatten

/-- The per-voxel visit counter built by the `count[x, y, z] += 1`
updates (a float array in the source; exact rationals here). -/
def foldCount (evs : List ((ℤ × ℤ × ℤ) × ℚ)) : (ℤ × ℤ × ℤ) → ℚ :=
  evs.foldl (fun c e => fun v => if v = e.1 then c v + 1 else c v)
    (fun _ => 0)

/-- The per-voxel value accumulator built by the
`the_map[x, y, z] += dpp[key][s][p]` updates. -/
def foldSum (evs : List ((ℤ × ℤ × ℤ) × ℚ)) : (ℤ × ℤ × ℤ) → ℚ :=
  evs.foldl (fun m e => fun v => if v = e.1 then m v + e.2 else m v)
    (fun _ => 0)

/--
`project_dpp_to_map(sft, dpp_key, sum_lines, endpoints_only)` from the
source: first `sft.to_vox(); sft.to_corner()` — permanently converting the
tractogram — then accumulate each selected point's per-point value into its
voxel and count visits; with `sum_lines=False` divide by the counter
floored at `1e-6` (the exact rational `1/1000000` here).  The voxel grid is
modelled as a total function on integer triples; numpy bounds checking and
negative wrap-around are not modelled, so grid-shaped statements carry an
in-bounds hypothesis.  An error carries the already-converted tractogram,
mirroring the in-place mutation. -/
def project_dpp_to_map (w2v : Point → Point) (sft : StatefulTractogram)
    (dpp_key : String) (sum_lines : Bool) (endpoints_only : Bool) :
    Except (PyErr × StatefulTractogram)
      (((ℤ × ℤ × ℤ) → ℚ) × StatefulTractogram) :=
  match collectEvents (to_corner (to_vox w2v sft)) dpp_key endpoints_only with
  | .error e => .error (e, to_corner (to_vox w2v sft))
  | .ok evs =>
    if sum_lines then .ok (foldSum evs, to_corner (to_vox w2v sft))
    else .ok (fun v => foldSum evs v / max (foldCount evs v) (1 / 1000000),
      to_corner (to_vox w2v sft))

/-- Whether an integer voxel triple lies inside the grid `dims`. -/
abbrev voxInBounds (dims : ℕ × ℕ × ℕ) (v : ℤ × ℤ × ℤ) : Prop :=
  0 ≤ v.1 ∧ v.1 < (dims.1 : ℤ) ∧ 0 ≤ v.2.1 ∧ v.2.1 < (dims.2.1 : ℤ) ∧
  0 ≤ v.2.2 ∧ v.2.2 < (dims.2.2 : ℤ)

theorem foldCount_apply (evs : List ((ℤ × ℤ × ℤ) × ℚ))
    (f : (ℤ × ℤ × ℤ) → ℚ) (v : ℤ × ℤ × ℤ) :
    (evs.foldl (fun c e => fun w => if w = e.1 then c w + 1 else c w) f) v
      = f v + ((evs.filter (fun e => e.1 = v)).length : ℚ) := by
  induction evs generalizing f with
  | nil => simp
  | cons e t ih =>
    rw [List.foldl_cons, ih]
    by_cases h : v = e.1
    · rw [if_pos h, List.filter_cons_of_pos (by simp [h]), List.length_cons]
      push_cast
      ring
    · rw [if_neg h, List.filter_cons_of_neg (by simpa using fun hh => h hh.symm)]

theorem foldSum_apply (evs : List ((ℤ × ℤ × ℤ) × ℚ))
    (f : (ℤ × ℤ × ℤ) → ℚ) (v : ℤ × ℤ × ℤ) :
    (evs.foldl (fun m e => fun w => if w = e.1 then m w + e.2 else m w) f) v
      = f v + ((evs.filter (fun e => e.1 = v)).map Prod.snd).sum := by
  induction evs generalizing f with
  | nil => simp
  | cons e t ih =>
    rw [List.foldl_cons, ih]
    by_cases h : v = e.1
    · rw [if_pos h, List.filter_cons_of_pos (by simp [h])]
      simp
      ring
    · rw [if_neg h, List.filter_cons_of_neg (by simpa using fun hh => h hh.symm)]

theorem foldCount_eq (evs : List ((ℤ × ℤ × ℤ) × ℚ)) (v : ℤ × ℤ × ℤ) :
    foldCount evs v = ((evs.filter (fun e => e.1 = v)).length : ℚ) := by
  rw [foldCount, foldCount_apply]
  simp

theorem foldSum_eq (evs : List ((ℤ × ℤ × ℤ) × ℚ)) (v : ℤ × ℤ × ℤ) :
    foldSum evs v = ((evs.filter (fun e => e.1 = v)).map Prod.snd).sum := by
  rw [foldSum, foldSum_apply]
  simp

theorem filter_len_le_one (evs : List ((ℤ × ℤ × ℤ) × ℚ)) (v : ℤ × ℤ × ℤ)
    (hnd : (evs.map Prod.fst).Nodup) :
    (evs.filter (fun e => e.1 = v)).length ≤ 1 := by
  induction evs with
  | nil => simp
  | cons e t ih =>
    rw [List.map_cons, List.nodup_cons] at hnd
    by_cases h : e.1 = v
    · rw [List.filter_cons_of_pos (by simp [h])]
      have ht : t.filter (fun e => e.1 = v) = [] := by
        rw [List.filter_eq_nil_iff]
        intro x hx
        simp only [decide_eq_true_eq]
        intro hxv
        exact hnd.1 (List.mem_map.mpr ⟨x, hx, by rw [hxv, h]⟩)
      rw [ht]
      simp
    · rw [List.filter_cons_of_neg (by simpa using h)]
      exact ih hnd.2

theorem filter_eq_nil_of_not_mem (evs : List ((ℤ × ℤ × ℤ) × ℚ))
    (v : ℤ × ℤ × ℤ) (hv : v ∉ evs.map Prod.fst) :
    evs.filter (fun e => e.1 = v) = [] := by
  rw [List.filter_eq_nil_iff]
  intro x hx
  simp only [decide_eq_true_eq]
  intro hxv
  exact hv (List.mem_map.mpr ⟨x, hx, hxv⟩)

theorem avg_eq_sum_of_le_one (evs : List ((ℤ × ℤ × ℤ) × ℚ)) (v : ℤ × ℤ × ℤ)
    (hle : (evs.filter (fun e => e.1 = v)).length ≤ 1) :
    foldSum evs v / max (foldCount evs v) (1 / 1000000) = foldSum evs v := by
  rw [foldCount_eq, foldSum_eq]
  rcases Nat.le_one_iff_eq_zero_or_eq_one.mp hle with h | h
  · rw [List.length_eq_zero.mp h]
    norm_num
  · rw [h]
    norm_num

/-- **C3.**  For `project_dpp_to_map`, whenever every voxel is visited by at
most one selected streamline point (the visited-voxel list has no
duplicate; all visits in bounds), the `sum_lines=True` and
`sum_lines=False` results are identical; moreover in the `sum_lines=False`
result every voxel that is never visited has value zero — its counter is
floored to the epsilon `1/1000000` instead of dividing zero by zero. -/
theorem project_dpp_to_map_sum_avg_agree (w2v : Point → Point)
    (sft : StatefulTractogram) (dpp_key : String) (endpoints_only : Bool)
    (evs : List ((ℤ × ℤ × ℤ) × ℚ))
    (hev : collectEvents (to_corner (to_vox w2v sft)) dpp_key endpoints_only
      = .ok evs)
    (hbnd : ∀ e ∈ evs, voxInBounds sft.dimensions e.1)
    (hnd : (evs.map Prod.fst).Nodup) :
    project_dpp_to_map w2v sft dpp_key true endpoints_only =
      project_dpp_to_map w2v sft dpp_key false endpoints_only ∧
    ∀ m t, project_dpp_to_map w2v sft dpp_key false endpoints_only =
        .ok (m, t) →
      ∀ v, v ∉ evs.map Prod.fst → m v = 0 := by
  have hfun : (fun v => foldSum evs v / max (foldCount evs v) (1 / 1000000))
      = foldSum evs := by
    funext v
    exact avg_eq_sum_of_le_one evs v (filter_len_le_one evs v hnd)
  constructor
  · rw [project_dpp_to_map, project_dpp_to_map, hev]
    simp only [Bool.false_eq_true, if_false, if_true, hfun]
  · intro m t hmt v hv
    rw [project_dpp_to_map, hev] at hmt
    simp only [Bool.false_eq_true, if_false, Except.ok.injEq, Prod.mk.injEq] at hmt
    rw [← hmt.1]
    show foldSum evs v / max (foldCount evs v) (1 / 1000000) = 0
    rw [foldSum_eq, filter_eq_nil_of_not_mem evs v hv]
    simp

/-- Closed witness for `project_dpp_to_map_sum_avg_agree`: one streamline,
two points in distinct voxels, scalar per-point values 2 and 3. -/
def sftC3 : StatefulTractogram :=
  { streamlines := [[(0, 0, 0), (1, 0, 0)]],
    data_per_streamline := [],
    data_per_point := [("m", [[[2], [3]]])],
    space := .vox, origin := .corner, dimensions := (2, 1, 1) }

theorem project_dpp_to_map_sum_avg_agree_witness :
    project_dpp_to_map id sftC3 "m" true false =
      project_dpp_to_map id sftC3 "m" false false :=
  (project_dpp_to_map_sum_avg_agree id sftC3 "m" false
    [((0, 0, 0), 2), ((1, 0, 0), 3)] (by decide) (by decide) (by decide)).1

theorem to_vox_space (w2v : Point → Point) (sft : StatefulTractogram) :
    (to_vox w2v sft).space = Space.vox := by
  rw [to_vox]
  split
  · next h => exact h
  · rfl

theorem to_corner_space (sft : StatefulTractogram) :
    (to_corner sft).space = sft.space := by
  rw [to_corner]
  split <;> rfl

theorem to_corner_origin (sft : StatefulTractogram) :
    (to_corner sft).origin = Origin.corner := by
  rw [to_corner]
  split
  · next h => exact h
  · rfl

theorem prep_space (w2v : Point → Point) (sft : StatefulTractogram) :
    (to_corner (to_vox w2v sft)).space = Space.vox := by
  rw [to_corner_space, to_vox_space]

theorem to_vox_dpp (w2v : Point → Point) (sft : StatefulTractogram) :
    (to_vox w2v sft).data_per_point = sft.data_per_point := by
  rw [to_vox]
  split <;> rfl

theorem to_corner_dpp (sft : StatefulTractogram) :
    (to_corner sft).data_per_point = sft.data_per_point := by
  rw [to_corner]
  split <;> rfl

theorem to_vox_streamlines_len (w2v : Point → Point)
    (sft : StatefulTractogram) :
    (to_vox w2v sft).streamlines.length = sft.streamlines.length := by
  rw [to_vox]
  split
  · rfl
  · simp

theorem to_corner_streamlines_len (sft : StatefulTractogram) :
    (to_corner sft).streamlines.length = sft.streamlines.length := by
  rw [to_corner]
  split
  · rfl
  · simp

theorem getD_map_len {α β : Type} (f : List α → List β)
    (hf : ∀ x, (f x).length = x.length) (l : List (List α)) (i : ℕ) :
    ((l.map f).getD i []).length = (l.getD i []).length := by
  by_cases h : i < l.length
  · rw [List.getD_eq_getElem _ _ (by simpa using h), List.getElem_map,
      List.getD_eq_getElem _ _ h, hf]
  · rw [List.getD_eq_default _ _ (by simpa using Nat.le_of_not_lt h),
      List.getD_eq_default _ _ (Nat.le_of_not_lt h)]
    rfl

theorem to_vox_first_len (w2v : Point → Point) (sft : StatefulTractogram) :
    ((to_vox w2v sft).streamlines.getD 0 []).length
      = (sft.streamlines.getD 0 []).length := by
  rw [to_vox]
  split
  · rfl
  · exact getD_map_len _ (fun x => by simp) _ 0

theorem to_corner_first_len (sft : StatefulTractogram) :
    ((to_corner sft).streamlines.getD 0 []).length
      = (sft.streamlines.getD 0 []).length := by
  rw [to_corner]
  split
  · rfl
  · exact getD_map_len _ (fun x => by simp) _ 0

theorem pyIndex_zero (n : ℕ) (hn : 0 < n) : pyIndex n 0 = some 0 := by
  rw [pyIndex, if_pos le_rfl, if_pos (by exact_mod_cast hn)]
  rfl

theorem mapME_cons_error {α β : Type} (f : α → Except PyErr β) (a : α)
    (l : List α) (e : PyErr) (h : f a = .error e) :
    mapME f (a :: l) = .error e := by
  rw [mapME, h]

theorem pointEvent_missing_key (sft1 : StatefulTractogram) (k : String)
    (si : ℕ) (p : ℤ) (pi : ℕ)
    (hk : alistLookup sft1.data_per_point k = none)
    (hp : pyIndex (sft1.streamlines.getD si []).length p = some pi)
    (hb : voxelOk sft1 (voxelOf sft1 si pi)) :
    pointEvent sft1 k si p = .error (.keyError k) := by
  simp only [pointEvent, hp, if_pos hb, hk]

theorem streamEvents_missing_key (sft1 : StatefulTractogram) (k : String)
    (endpoints_only : Bool)
    (hk : alistLookup sft1.data_per_point k = none)
    (h0 : 0 < (sft1.streamlines.getD 0 []).length)
    (hb : voxelOk sft1 (voxelOf sft1 0 0)) :
    streamEvents sft1 k endpoints_only 0 = .error (.keyError k) := by
  rw [streamEvents]
  cases endpoints_only with
  | true =>
    rw [if_pos rfl]
    exact mapME_cons_error _ _ _ _
      (pointEvent_missing_key sft1 k 0 0 0 hk (pyIndex_zero _ h0) hb)
  | false =>
    rw [if_neg (by simp)]
    obtain ⟨m, hm⟩ : ∃ m, (sft1.streamlines.getD 0 []).length = m + 1 :=
      ⟨_, (Nat.succ_pred_eq_of_pos h0).symm⟩
    rw [hm, List.range_succ_eq_map, List.map_cons]
    exact mapME_cons_error _ _ _ _
      (pointEvent_missing_key sft1 k 0 (Int.ofNat 0) 0 hk
        (by rw [show Int.ofNat 0 = 0 from rfl, pyIndex_zero _ h0]) hb)

theorem collectEvents_missing_key (sft1 : StatefulTractogram) (k : String)
    (endpoints_only : Bool)
    (hk : alistLookup sft1.data_per_point k = none)
    (hne : sft1.streamlines.length ≠ 0)
    (h0 : 0 < (sft1.streamlines.getD 0 []).length)
    (hb : voxelOk sft1 (voxelOf sft1 0 0)) :
    collectEvents sft1 k endpoints_only = .error (.keyError k) := by
  rw [collectEvents]
  obtain ⟨m, hm⟩ : ∃ m, sft1.streamlines.length = m + 1 :=
    ⟨_, (Nat.succ_pred_eq_of_pos (Nat.pos_of_ne_zero hne)).symm⟩
  rw [hm, List.range_succ_eq_map,
    mapME_cons_error _ _ _ _ (streamEvents_missing_key sft1 k _ hk h0 hb)]

/-- **C10.**  `project_dpp_to_map` converts the tractogram to voxel space,
corner origin before reading the requested `data_per_point` key: when the
key is absent (and there is a streamline with a point, so the loop body
runs), the call raises the missing-key lookup error, but the tractogram
state carried at the raise is the already-converted one — its space tag is
`vox` and its origin tag is `corner`, and it differs from the input
whenever the input was not already in that convention.  The error is not
atomic with respect to the tractogram's state.  The first accessed point's
voxel must pass the grid bounds check of `count[x, y, z] += 1`, which in
the source precedes the `data_per_point` access — otherwise the program
raises `IndexError` first, not the missing-key error. -/
theorem project_dpp_to_map_missing_key_not_atomic (w2v : Point → Point)
    (sft : StatefulTractogram) (dpp_key : String)
    (sum_lines endpoints_only : Bool)
    (hk : alistLookup sft.data_per_point dpp_key = none)
    (hne : sft.streamlines.length ≠ 0)
    (h0 : 0 < (sft.streamlines.getD 0 []).length)
    (hb : voxelOk (to_corner (to_vox w2v sft))
      (voxelOf (to_corner (to_vox w2v sft)) 0 0)) :
    project_dpp_to_map w2v sft dpp_key sum_lines endpoints_only =
      .error (.keyError dpp_key, to_corner (to_vox w2v sft)) ∧
    (to_corner (to_vox w2v sft)).space = Space.vox ∧
    (to_corner (to_vox w2v sft)).origin = Origin.corner ∧
    (sft.space ≠ Space.vox → to_corner (to_vox w2v sft) ≠ sft) := by
  have hk1 : alistLookup (to_corner (to_vox w2v sft)).data_per_point dpp_key
      = none := by
    rw [to_corner_dpp, to_vox_dpp]
    exact hk
  have hne1 : (to_corner (to_vox w2v sft)).streamlines.length ≠ 0 := by
    rw [to_corner_streamlines_len, to_vox_streamlines_len]
    exact hne
  have h01 : 0 < ((to_corner (to_vox w2v sft)).streamlines.getD 0 []).length := by
    rw [to_corner_first_len, to_vox_first_len]
    exact h0
  refine ⟨?_, prep_space w2v sft, to_corner_origin _, ?_⟩
  · rw [project_dpp_to_map,
      collectEvents_missing_key _ _ _ hk1 hne1 h01 hb]
  · intro hsp hc
    apply hsp
    rw [← hc]
    exact prep_space w2v sft

/-- Closed witness for `project_dpp_to_map_missing_key_not_atomic`: a
world-space tractogram with one one-point streamline at the origin — after
conversion the point truncates to voxel (0, 0, 0), inside the (1, 1, 1)
grid — and no DPP keys. -/
def sftC10 : StatefulTractogram :=
  { streamlines := [[(0, 0, 0)]],
    data_per_streamline := [],
    data_per_point := [],
    space := .world, origin := .corner, dimensions := (1, 1, 1) }

theorem project_dpp_to_map_missing_key_not_atomic_witness :
    project_dpp_to_map id sftC10 "m" false false =
      .error (.keyError "m", to_corner (to_vox id sftC10)) ∧
    (to_corner (to_vox id sftC10)).space = Space.vox ∧
    (to_corner (to_vox id sftC10)).origin = Origin.corner ∧
    (sftC10.space ≠ Space.vox → to_corner (to_vox id sftC10) ≠ sftC10) :=
  project_dpp_to_map_missing_key_not_atomic id sftC10 "m" false false
    (by decide) (by decide) (by decide) (by decide)

end Scilpy
